import Mathlib

/-!
# Verification of muuri's per-item visibility state machine and debounce helper

Shallow embedding of `src/Item/ItemVisibility.ts`, the relevant parts of
`src/Item/Item.ts`, and `src/utils/debounce.ts`.

Modelling conventions:
* Completion callbacks passed by callers of `show`/`hide` are identified by
  natural numbers.  An invocation of such a callback is recorded as an event
  `(id, interrupted)` appended to an event log, so that ordering and the
  `interrupted` flag of every invocation are observable.
* The emitter (callback queue) and the visibility ticker are collaborators of
  `ItemVisibility` whose source files are not part of this corpus; they are
  modelled from the spec (see the doc comments on `burst`, `emitterOn`,
  `clearQueue`, `isInViewport`, `VIEWPORT_THRESHOLD` and the tick fields).
* The pending read/write tick pair registered by `_startAnimation` via
  `addVisibilityTick(item.id, read, write)` is modelled as an optional
  `TickData` value (at most one pending registration per item id, replaced on
  re-registration, removed by `cancelVisibilityTick`).  Executing the pending
  tick (read phase then write phase, as the ticker does) is `runTick`.
* The animator is modelled by its observable interface: `animator.animation`
  is an optional animation handle carrying its `onfinish` callback
  (`Option (Option FinishCb)`); `animator.start` is additionally counted in
  `animStarts`; `animator.stop` clears the handle.
* Inline style application through the `setStyles` util is recorded as a log
  of applied style declarations (`styleWrites`); style contents never feed
  back into control flow, so the log captures everything the claims observe.
-/

namespace Muuri

/-- A style declaration: ordered property/value pairs (`StyleDeclaration`). -/
abbrev StyleDeclaration := List (String × String)

/-- Identifier of a completion callback handed to `show`/`hide`. -/
abbrev CallbackId := Nat

/-- The internal finish handlers that `ItemVisibility` wires into
`_startAnimation`: `_finishShow` (bound in the constructor) or `_finishHide`. -/
inductive FinishCb where
  | fshow
  | fhide
deriving DecidableEq, Repr

/-- The data captured by the closure pair that `_startAnimation` registers with
`addVisibilityTick`: the transition direction, the target style set and the
`onFinish` handler. -/
structure TickData where
  toVisible : Bool
  targetStyles : StyleDeclaration
  onFinish : Option FinishCb
deriving DecidableEq, Repr

/-- The grid settings `ItemVisibility` reads (`settings.visibleStyles`,
`settings.hiddenStyles`, `settings.showDuration`, `settings.hideDuration`,
`settings._animationWindowing`).  A style set is `none` when the setting is
absent/undefined (JS falsy) and `some l` when it is an object with entries
`l` — in particular `some []` is an empty but defined style object, which is
truthy in JS. -/
structure Settings where
  visibleStyles : Option StyleDeclaration
  hiddenStyles : Option StyleDeclaration
  showDuration : Int
  hideDuration : Int
  _animationWindowing : Bool
deriving DecidableEq, Repr

/-- The observable state of one `ItemVisibility` instance together with the
parts of its collaborators it owns or drives:

* `_isHidden`, `_isHiding`, `_isShowing`, `_isDestroyed` — the instance's
  boolean flags.
* `queue` — the listeners registered under the instance's emitter queue key
  (`'visibility-' + item.id`), in registration order.
* `events` — log of completion-callback invocations `(id, interrupted)`.
* `tick` — the pending visibility tick registration for the item's id.
* `needsDimensionRefresh` — `grid._itemVisibilityNeedsDimensionRefresh`.
* `animator` — `animator.animation`: `none` when no animation handle exists
  (stopped), `some f` when a handle exists whose `onfinish` is `f`.
* `animStarts` — how many times `animator.start` has been called.
* `styleWrites` — log of `setStyles(childElement, …)` applications.
* `displayNone` — whether `element.style.display` is `'none'`.
* `visibleClass`, `hiddenClass` — presence of the visible/hidden CSS class.
* `layoutStopped` — whether `item._layout.stop(true, 0, 0)` has been issued
  (done by `_finishHide`). -/
structure VisState where
  _isHidden : Bool
  _isHiding : Bool
  _isShowing : Bool
  _isDestroyed : Bool
  queue : List CallbackId
  events : List (CallbackId × Bool)
  tick : Option TickData
  needsDimensionRefresh : Bool
  animator : Option (Option FinishCb)
  animStarts : Nat
  styleWrites : List StyleDeclaration
  displayNone : Bool
  visibleClass : Bool
  hiddenClass : Bool
  layoutStopped : Bool
deriving DecidableEq, Repr

/-- Modelled from the spec: §4.2 Callback Queue, `burst(queueKey, ...args)` —
"invokes every currently-stored listener for `queueKey`, in order, with
`args`, then clears the queue for that key"; tolerates an empty queue.  The
arguments used by `ItemVisibility` are `(interrupted, item)`; each listener
invocation is recorded in the event log. -/
def burst (interrupted : Bool) (s : VisState) : VisState :=
  { s with queue := [],
           events := s.events ++ s.queue.map (fun cb => (cb, interrupted)) }

/-- Modelled from the spec: §4.2 Callback Queue, `on(queueKey, listener)` —
"appends `listener` to the queue's ordered sequence". -/
def emitterOn (cb : CallbackId) (s : VisState) : VisState :=
  { s with queue := s.queue ++ [cb] }

/-- Modelled from the spec: §4.2 Callback Queue, `clear(queueKey)` — "drops
all listeners for a key without invoking them". -/
def clearQueue (s : VisState) : VisState :=
  { s with queue := [] }

/-- `ItemVisibility._finishShow` (ItemVisibility.ts:383-387). -/
def _finishShow (s : VisState) : VisState :=
  if s._isHidden then s
  else burst false { s with _isShowing := false }

/-- `ItemVisibility._finishHide` (ItemVisibility.ts:394-401): flips `_isHiding`
off, stops the layout animation at zero duration, sets the element's display
to `'none'` and bursts the queue with `interrupted=false`. -/
def _finishHide (s : VisState) : VisState :=
  if !s._isHidden then s
  else burst false { s with _isHiding := false, layoutStopped := true,
                            displayNone := true }

/-- Run an optional finish handler (`onFinish && onFinish()`). -/
def runFinish (f : Option FinishCb) (s : VisState) : VisState :=
  match f with
  | none => s
  | some FinishCb.fshow => _finishShow s
  | some FinishCb.fhide => _finishHide s

/-- `ItemVisibility._startAnimation` (ItemVisibility.ts:286-376) up to the
registration of the read/write tick pair; the registered pair itself is
executed by `runTick`.  Path by path:
* destroyed: return;
* `!targetStyles` (JS falsy, i.e. absent/undefined): stop the animator and
  finish immediately — note no tick cancellation and no style application;
* cancel the pending visibility tick;
* instant (`instant || duration <= 0`): apply the target styles, stop the
  animator, finish immediately;
* otherwise: null out a stale animation handle's `onfinish`, raise
  `grid._itemVisibilityNeedsDimensionRefresh` and register the read/write
  tick pair keyed by the item's id. -/
def _startAnimation (st : Settings) (toVisible instant : Bool)
    (onFinish : Option FinishCb) (s : VisState) : VisState :=
  if s._isDestroyed then s else
  let targetStyles := if toVisible then st.visibleStyles else st.hiddenStyles
  let duration := if toVisible then st.showDuration else st.hideDuration
  let isInstant := instant || decide (duration ≤ 0)
  match targetStyles with
  | none => runFinish onFinish { s with animator := none }
  | some styles =>
    let s := { s with tick := none }
    if isInstant then
      runFinish onFinish
        { s with styleWrites := s.styleWrites ++ [styles], animator := none }
    else
      { s with animator := s.animator.map (fun _ => none),
               needsDimensionRefresh := true,
               tick := some ⟨toVisible, styles, onFinish⟩ }

/-- `ItemVisibility.show` (ItemVisibility.ts:121-163). -/
def show' (st : Settings) (instant : Bool) (onFinish : Option CallbackId)
    (s : VisState) : VisState :=
  if s._isDestroyed then s
  else if !s._isShowing && !s._isHidden then
    match onFinish with
    | some cb => { s with events := s.events ++ [(cb, false)] }
    | none => s
  else if s._isShowing && !instant then
    match onFinish with
    | some cb => emitterOn cb s
    | none => s
  else
    let s :=
      if !s._isShowing then
        let s := burst true s
        let s := { s with hiddenClass := false, visibleClass := true }
        if !s._isHiding then { s with displayNone := false } else s
      else s
    let s :=
      match onFinish with
      | some cb => emitterOn cb s
      | none => s
    let s := { s with _isShowing := true, _isHiding := false, _isHidden := false }
    _startAnimation st true instant (some FinishCb.fshow) s

/-- `ItemVisibility.hide` (ItemVisibility.ts:172-211). -/
def hide' (st : Settings) (instant : Bool) (onFinish : Option CallbackId)
    (s : VisState) : VisState :=
  if s._isDestroyed then s
  else if !s._isHiding && s._isHidden then
    match onFinish with
    | some cb => { s with events := s.events ++ [(cb, false)] }
    | none => s
  else if s._isHiding && !instant then
    match onFinish with
    | some cb => emitterOn cb s
    | none => s
  else
    let s :=
      if !s._isHiding then
        let s := burst true s
        { s with hiddenClass := true, visibleClass := false }
      else s
    let s :=
      match onFinish with
      | some cb => emitterOn cb s
      | none => s
    let s := { s with _isHidden := true, _isHiding := true, _isShowing := false }
    _startAnimation st false instant (some FinishCb.fhide) s

/-- `ItemVisibility.stop` (ItemVisibility.ts:219-230). -/
def stop' (processCallbackQueue : Bool) (s : VisState) : VisState :=
  if s._isDestroyed then s
  else if !s._isHiding && !s._isShowing then s
  else
    let s := { s with tick := none, animator := none }
    if processCallbackQueue then burst true s else s

/-- `ItemVisibility.destroy` (ItemVisibility.ts:256-276): `stop(true)`, clear
the emitter queue, destroy the animator, remove visibility styles and classes,
reset `display`, then force the terminal state. -/
def destroy' (s : VisState) : VisState :=
  if s._isDestroyed then s
  else
    let s := stop' true s
    let s := clearQueue s
    let s := { s with animator := none }
    let s := { s with visibleClass := false, hiddenClass := false,
                      displayNone := false }
    { s with _isHiding := false, _isShowing := false,
             _isDestroyed := true, _isHidden := true }

/-- The state produced by the `ItemVisibility` constructor
(ItemVisibility.ts:44-72) for an item whose active flag is `isActive`. -/
def initVis (isActive : Bool) : VisState :=
  { _isHidden := !isActive, _isHiding := false, _isShowing := false,
    _isDestroyed := false, queue := [], events := [], tick := none,
    needsDimensionRefresh := false, animator := none, animStarts := 0,
    styleWrites := [], displayNone := !isActive, visibleClass := isActive,
    hiddenClass := !isActive, layoutStopped := false }

/-- The geometry the DOM and the grid supply to the read/write tick pair:
the item's current translate (`item._getTranslate()`), its layout position
(`item.left`, `item.top`), the container diff, the item's outer dimensions and
margins (`Item` cached dimensions), the grid's cached rect and borders
(`grid._rect`, `grid._borderLeft/Top`), the viewport dimensions, and the
item's active flag (`item.isActive()`). -/
structure Geometry where
  translateX : Int
  translateY : Int
  itemLeft : Int
  itemTop : Int
  containerDiffX : Int
  containerDiffY : Int
  width : Int
  height : Int
  marginLeft : Int
  marginTop : Int
  rectLeft : Int
  rectTop : Int
  borderLeft : Int
  borderTop : Int
  vpWidth : Int
  vpHeight : Int
  isActive : Bool
deriving DecidableEq, Repr

/-- Modelled from the spec: the viewport threshold margin constant
`VIEWPORT_THRESHOLD` (`src/constants` is not part of this corpus); the spec
only requires it to be a threshold margin, so a fixed positive margin is
used. -/
def VIEWPORT_THRESHOLD : Int := 100

/-- Modelled from the spec: §6, "compute whether a rectangle (with a
threshold margin) intersects the viewport" (the `isInViewport` util's source
file is not part of this corpus).  The rectangle at `(left, top)` of size
`width × height`, inflated by `padding`, intersects the viewport
`[0, vpWidth] × [0, vpHeight]`. -/
def isInViewport (g : Geometry) (width height left top padding : Int) : Bool :=
  decide (left - padding < g.vpWidth) && decide (0 < left + width + padding) &&
  decide (top - padding < g.vpHeight) && decide (0 < top + height + padding)

/-- `Item._getClientRootPosition` (Item.ts:372-377), `left` component:
`grid._rect.left + grid._borderLeft - this._containerDiffX`. -/
def rootLeft (g : Geometry) : Int :=
  g.rectLeft + g.borderLeft - g.containerDiffX

/-- `Item._getClientRootPosition` (Item.ts:372-377), `top` component. -/
def rootTop (g : Geometry) : Int :=
  g.rectTop + g.borderTop - g.containerDiffY

/-- `Item._isInViewport` (Item.ts:388-397). -/
def _isInViewport (g : Geometry) (x y viewportThreshold : Int) : Bool :=
  isInViewport g g.width g.height (rootLeft g + g.marginLeft + x)
    (rootTop g + g.marginTop + y) viewportThreshold

/-- Execution of the pending visibility tick: the ticker removes the
registration, runs the read callback (ItemVisibility.ts:330-345) and then the
write callback (ItemVisibility.ts:346-375).  Nothing else runs between the
two phases for a single instance, and the read callback does not change the
instance's flags, so the write phase's re-check of the guard is evaluated on
the same flags as the read phase's; the two guards are therefore folded into
one.  `currentStyles` is assigned exactly when the read guard passes (a style
object is always truthy), so the write phase's `if (currentStyles)` check
passes whenever the guards do.  The nested viewport skip condition
(ItemVisibility.ts:351-365) is flattened into a single conjunction: the skip
is taken iff the item at its current translate is out of the viewport AND
(the item is inactive OR the item at its post-layout position is out of the
viewport). -/
def runTick (st : Settings) (g : Geometry) (s : VisState) : VisState :=
  match s.tick with
  | none => s
  | some td =>
    let s := { s with tick := none }
    if s._isDestroyed || (if td.toVisible then !s._isShowing else !s._isHiding)
    then s
    else
      let s :=
        if st._animationWindowing && s.needsDimensionRefresh then
          { s with needsDimensionRefresh := false }
        else s
      if st._animationWindowing &&
         !(_isInViewport g g.translateX g.translateY VIEWPORT_THRESHOLD) &&
         (!g.isActive ||
          !(_isInViewport g (g.itemLeft + g.containerDiffX)
              (g.itemTop + g.containerDiffY) VIEWPORT_THRESHOLD)) then
        runFinish td.onFinish
          { s with styleWrites := s.styleWrites ++ [td.targetStyles],
                   animator := none }
      else
        { s with animator := some td.onFinish, animStarts := s.animStarts + 1 }

/-- The operations of claim C1's sequences. -/
inductive Op where
  | opShow (instant : Bool) (onFinish : Option CallbackId)
  | opHide (instant : Bool) (onFinish : Option CallbackId)
  | opStop (processCallbackQueue : Bool)
  | opDestroy
  | opFinishShow
  | opFinishHide
deriving DecidableEq, Repr

/-- Apply one operation to the state. -/
def applyOp (st : Settings) (op : Op) (s : VisState) : VisState :=
  match op with
  | Op.opShow instant onFinish => show' st instant onFinish s
  | Op.opHide instant onFinish => hide' st instant onFinish s
  | Op.opStop p => stop' p s
  | Op.opDestroy => destroy' s
  | Op.opFinishShow => _finishShow s
  | Op.opFinishHide => _finishHide s

/-- Apply a sequence of operations, first element first. -/
def runOps (st : Settings) (ops : List Op) (s : VisState) : VisState :=
  ops.foldl (fun s op => applyOp st op s) s

/-! ## The debounce helper (`src/utils/debounce.ts`)

The closure state of one `debounce(fn, durationMs)` instance.  The ticker
registration `ticker.once(PHASE_READ, tick, id)` / `ticker.off(PHASE_READ,
id)` is modelled from the spec (§4.1: at most one pending callback per
(phase, key), replaced on re-registration, removed by `off`) as the boolean
`scheduled`; the ticker firing a frame is `tickerFire`.  Executions of `fn`
are counted in `fireCount`. -/

/-- The mutable closure variables of a `debounce` instance:
`timer`, `lastTime`, `isCanceled`, whether the `tick` closure variable is
still set (`tickAlive`, i.e. not `undefined`), the pending ticker
registration, and how many times `fn` has run. -/
structure DebState where
  timer : Int
  lastTime : Int
  isCanceled : Bool
  tickAlive : Bool
  scheduled : Bool
  fireCount : Nat
deriving DecidableEq, Repr

/-- The `tick` closure of `debounce` (debounce.ts:25-39), invoked with a
frame timestamp.  `if (lastTime)` is JS truthiness on a number:
`lastTime ≠ 0`. -/
def tick (time : Int) (d : DebState) : DebState :=
  if d.isCanceled then d
  else
    let d := if d.lastTime ≠ 0 then
               { d with timer := d.timer - (time - d.lastTime) }
             else d
    let d := { d with lastTime := time }
    if 0 < d.timer then
      if d.tickAlive then { d with scheduled := true } else d
    else
      { d with timer := 0, lastTime := 0, fireCount := d.fireCount + 1 }

/-- The function returned by `debounce(fn, durationMs)`
(debounce.ts:41-63). -/
def debouncedFn (durationMs : Int) (cancel : Bool) (d : DebState) : DebState :=
  if d.isCanceled then d
  else if durationMs ≤ 0 then
    if cancel = false then { d with fireCount := d.fireCount + 1 } else d
  else if cancel then
    { d with isCanceled := true, timer := 0, lastTime := 0,
             tickAlive := false, scheduled := false }
  else if d.timer ≤ 0 then
    tick 0 { d with timer := durationMs }
  else
    { d with timer := durationMs }

/-- The ticker running a frame at timestamp `time`: a `once` registration is
removed before its callback is invoked, and the callback only runs while a
registration is pending. -/
def tickerFire (time : Int) (d : DebState) : DebState :=
  if d.scheduled then tick time { d with scheduled := false } else d

/-- The closure state right after `debounce(fn, durationMs)` returns
(debounce.ts:21-24). -/
def initDeb : DebState :=
  { timer := 0, lastTime := 0, isCanceled := false, tickAlive := true,
    scheduled := false, fireCount := 0 }

/-- Events that can reach a debounce instance: an invocation of the debounced
function (with its `cancel` argument) or a ticker frame. -/
inductive DebOp where
  | call (cancel : Bool)
  | frame (time : Int)
deriving DecidableEq, Repr

/-- Apply one debounce event. -/
def applyDebOp (durationMs : Int) (op : DebOp) (d : DebState) : DebState :=
  match op with
  | DebOp.call cancel => debouncedFn durationMs cancel d
  | DebOp.frame time => tickerFire time d

/-- Apply a sequence of debounce events, first element first. -/
def runDeb (durationMs : Int) (ops : List DebOp) (d : DebState) : DebState :=
  ops.foldl (fun d op => applyDebOp durationMs op d) d

/-! ## Concrete settings, geometries and states used by witnesses -/

/-- Representative settings: both style sets present and non-empty, positive
durations, windowing off. -/
def settingsBasic : Settings :=
  { visibleStyles := some [("opacity", "1")], hiddenStyles := some [("opacity", "0")],
    showDuration := 300, hideDuration := 300, _animationWindowing := false }

/-- Settings whose style sets are empty but defined objects (`{}` in JS,
which is truthy). -/
def settingsEmptyStyles : Settings :=
  { visibleStyles := some [], hiddenStyles := some [],
    showDuration := 300, hideDuration := 300, _animationWindowing := false }

/-- Settings with absent (undefined, JS falsy) style sets. -/
def settingsNoStyles : Settings :=
  { visibleStyles := none, hiddenStyles := none,
    showDuration := 300, hideDuration := 300, _animationWindowing := false }

/-- Representative settings with the animation-windowing optimization on. -/
def settingsWindowing : Settings :=
  { visibleStyles := some [("opacity", "1")], hiddenStyles := some [("opacity", "0")],
    showDuration := 300, hideDuration := 300, _animationWindowing := true }

/-- An active 50×50 item whose current translate position (10, 10) is inside
the 800×600 viewport while its post-layout position (2000, 2000) is outside
it even with the threshold margin. -/
def geomTargetOut : Geometry :=
  { translateX := 10, translateY := 10, itemLeft := 2000, itemTop := 2000,
    containerDiffX := 0, containerDiffY := 0, width := 50, height := 50,
    marginLeft := 0, marginTop := 0, rectLeft := 0, rectTop := 0,
    borderLeft := 0, borderTop := 0, vpWidth := 800, vpHeight := 600,
    isActive := true }

/-- An inactive item whose current translate position (2000, 2000) is outside
the viewport plus the threshold margin. -/
def geomCurrentOut : Geometry :=
  { geomTargetOut with translateX := 2000, translateY := 2000,
                       itemLeft := 10, itemTop := 10, isActive := false }

/-- A reachable state in the middle of a non-instant show transition:
queue `[1]`, `_isShowing` set, the read/write tick pair pending. -/
def stateShowing : VisState :=
  show' settingsBasic false (some 1) (initVis false)

/-- A reachable state in the middle of a non-instant hide transition under
windowing settings. -/
def stateHiding : VisState :=
  hide' settingsWindowing false (some 1) (initVis true)

/-! ## Invariant of the visibility flags (claim C1) -/

lemma inv_finishShow (s : VisState) (h : (s._isHiding && s._isShowing) = false) :
    ((_finishShow s)._isHiding && (_finishShow s)._isShowing) = false := by
  unfold _finishShow burst
  split <;> simp_all

lemma inv_finishHide (s : VisState) (h : (s._isHiding && s._isShowing) = false) :
    ((_finishHide s)._isHiding && (_finishHide s)._isShowing) = false := by
  unfold _finishHide burst
  split <;> simp_all

lemma inv_runFinish (f : Option FinishCb) (s : VisState)
    (h : (s._isHiding && s._isShowing) = false) :
    ((runFinish f s)._isHiding && (runFinish f s)._isShowing) = false := by
  cases f with
  | none => exact h
  | some c => cases c with
    | fshow => exact inv_finishShow s h
    | fhide => exact inv_finishHide s h

lemma inv_startAnimation (st : Settings) (tv i : Bool) (f : Option FinishCb)
    (s : VisState) (h : (s._isHiding && s._isShowing) = false) :
    ((_startAnimation st tv i f s)._isHiding &&
      (_startAnimation st tv i f s)._isShowing) = false := by
  unfold _startAnimation
  by_cases hd : s._isDestroyed = true
  · simpa [hd] using h
  · cases tv
    · simp only [Bool.false_eq_true, if_false, hd]
      cases hh : st.hiddenStyles
      · exact inv_runFinish _ _ h
      · by_cases hi : (i || decide (st.hideDuration ≤ 0)) = true
        · simp only [hi, if_true]
          exact inv_runFinish _ _ h
        · simp only [hi, if_false]
          simpa using h
    · simp only [if_true, hd]
      cases hv : st.visibleStyles
      · exact inv_runFinish _ _ h
      · by_cases hi : (i || decide (st.showDuration ≤ 0)) = true
        · simp only [hi, if_true]
          exact inv_runFinish _ _ h
        · simp only [hi, if_false]
          simpa using h

lemma inv_show (st : Settings) (i : Bool) (f : Option CallbackId) (s : VisState)
    (h : (s._isHiding && s._isShowing) = false) :
    ((show' st i f s)._isHiding && (show' st i f s)._isShowing) = false := by
  unfold show'
  by_cases hd : s._isDestroyed = true
  · simpa [hd] using h
  · by_cases h1 : (!s._isShowing && !s._isHidden) = true
    · cases f <;> simpa [hd, h1] using h
    · by_cases h2 : (s._isShowing && !i) = true
      · cases f <;> simpa [hd, h1, h2, emitterOn] using h
      · rw [if_neg hd, if_neg h1, if_neg h2]
        exact inv_startAnimation _ _ _ _ _ rfl

lemma inv_hide (st : Settings) (i : Bool) (f : Option CallbackId) (s : VisState)
    (h : (s._isHiding && s._isShowing) = false) :
    ((hide' st i f s)._isHiding && (hide' st i f s)._isShowing) = false := by
  unfold hide'
  by_cases hd : s._isDestroyed = true
  · simpa [hd] using h
  · by_cases h1 : (!s._isHiding && s._isHidden) = true
    · cases f <;> simpa [hd, h1] using h
    · by_cases h2 : (s._isHiding && !i) = true
      · cases f <;> simpa [hd, h1, h2, emitterOn] using h
      · rw [if_neg hd, if_neg h1, if_neg h2]
        exact inv_startAnimation _ _ _ _ _ rfl

lemma inv_stop (p : Bool) (s : VisState)
    (h : (s._isHiding && s._isShowing) = false) :
    ((stop' p s)._isHiding && (stop' p s)._isShowing) = false := by
  unfold stop' burst
  split
  · exact h
  · split
    · exact h
    · split <;> simpa using h

lemma inv_destroy (s : VisState)
    (h : (s._isHiding && s._isShowing) = false) :
    ((destroy' s)._isHiding && (destroy' s)._isShowing) = false := by
  unfold destroy'
  split
  · exact h
  · rfl

lemma inv_applyOp (st : Settings) (op : Op) (s : VisState)
    (h : (s._isHiding && s._isShowing) = false) :
    ((applyOp st op s)._isHiding && (applyOp st op s)._isShowing) = false := by
  cases op with
  | opShow i f => exact inv_show st i f s h
  | opHide i f => exact inv_hide st i f s h
  | opStop p => exact inv_stop p s h
  | opDestroy => exact inv_destroy s h
  | opFinishShow => exact inv_finishShow s h
  | opFinishHide => exact inv_finishHide s h

lemma inv_runOps (st : Settings) (ops : List Op) (s : VisState)
    (h : (s._isHiding && s._isShowing) = false) :
    ((runOps st ops s)._isHiding && (runOps st ops s)._isShowing) = false := by
  induction ops generalizing s with
  | nil => exact h
  | cons op ops ih =>
    simpa [runOps, List.foldl_cons] using ih (applyOp st op s) (inv_applyOp st op s h)

/-- C1: for every `ItemVisibility` instance (any settings, any initial active
flag) and every sequence of calls to `show`, `hide`, `stop`, `destroy`,
`_finishShow` and `_finishHide`, the state never has `_isHiding` and
`_isShowing` both true at the same time. -/
theorem C1_hiding_showing_never_both (st : Settings) (isActive : Bool)
    (ops : List Op) :
    ((runOps st ops (initVis isActive))._isHiding &&
      (runOps st ops (initVis isActive))._isShowing) = false :=
  inv_runOps st ops (initVis isActive) rfl

/-! ## Claim C2 -/

/-- C2, counterexample: starting hidden, `show(false, cb1)` reaches the
`showing` state with `cb1` pending; a subsequent `show(true, cb2)` then makes
the instant show finish, and both callbacks are invoked with
`interrupted=false` — `cb1` is never invoked with `interrupted=true`,
contradicting the claim that `cb1` is invoked with `interrupted=true` before
`cb2`.  (The interrupt burst at ItemVisibility.ts:143-144 is guarded by
`!this._isShowing` and is skipped when the item is already showing.) -/
theorem C2_counterexample :
    (runOps settingsBasic [Op.opShow false (some 1), Op.opShow true (some 2)]
        (initVis false)).events = [(1, false), (2, false)] ∧
    (1, true) ∉ (runOps settingsBasic
        [Op.opShow false (some 1), Op.opShow true (some 2)]
        (initVis false)).events := by
  decide

/-- C2, amended: if `show(true, cb2)` is called on a non-destroyed instance
that is currently showing (and not hidden) with exactly `cb1` pending, then
no interrupt burst occurs; the instant show finishes synchronously and `cb1`
is invoked with `interrupted=false` strictly before `cb2` is invoked with
`interrupted=false`. -/
theorem C2_amended_show_instant_while_showing (st : Settings)
    (cb1 cb2 : CallbackId) (s : VisState)
    (hd : s._isDestroyed = false) (hs : s._isShowing = true)
    (hh : s._isHidden = false) (hq : s.queue = [cb1]) :
    (show' st true (some cb2) s).events
      = s.events ++ [(cb1, false), (cb2, false)] := by
  cases hv : st.visibleStyles <;>
    simp [show', _startAnimation, runFinish, _finishShow, burst, emitterOn,
      hd, hs, hh, hq, hv]

/-- Witness for the amended C2 at a concrete reachable showing state. -/
theorem C2_amended_witness :
    (show' settingsBasic true (some 2) stateShowing).events
      = stateShowing.events ++ [(1, false), (2, false)] :=
  C2_amended_show_instant_while_showing settingsBasic 1 2 stateShowing
    rfl rfl rfl rfl

/-! ## Claim C3 -/

/-- C3: calling `show(instant, onFinish)` on a non-destroyed instance that is
currently visible (neither showing nor hidden) only invokes `onFinish` with
`interrupted=false` synchronously; no flag, class, display, scheduler,
animator or queue change happens. -/
theorem C3_show_while_visible (st : Settings) (instant : Bool)
    (cb : CallbackId) (s : VisState)
    (hd : s._isDestroyed = false) (hs : s._isShowing = false)
    (hh : s._isHidden = false) :
    show' st instant (some cb) s
      = { s with events := s.events ++ [(cb, false)] } := by
  simp [show', hd, hs, hh]

/-- Witness for C3 at the freshly constructed visible state. -/
theorem C3_witness :
    show' settingsBasic false (some 7) (initVis true)
      = { initVis true with events := (initVis true).events ++ [(7, false)] } :=
  C3_show_while_visible settingsBasic false 7 (initVis true) rfl rfl rfl

/-! ## Claim C4 -/

/-- C4: calling `show(false, onFinish)` on a non-destroyed instance that is
currently showing only appends `onFinish` to the completion queue; the state
flags, CSS classes, display style, scheduler registration and animator are
all left unchanged and no new animation is started. -/
theorem C4_show_while_showing_coalesces (st : Settings) (cb : CallbackId)
    (s : VisState) (hd : s._isDestroyed = false) (hs : s._isShowing = true) :
    show' st false (some cb) s = { s with queue := s.queue ++ [cb] } := by
  simp [show', emitterOn, hd, hs]

/-- Witness for C4 at a concrete reachable showing state. -/
theorem C4_witness :
    show' settingsBasic false (some 2) stateShowing
      = { stateShowing with queue := stateShowing.queue ++ [2] } :=
  C4_show_while_showing_coalesces settingsBasic 2 stateShowing rfl rfl

/-! ## Claim C5 -/

/-- C5: on a non-destroyed instance, `stop(processQueue)` is a no-op when the
instance is neither showing nor hiding; otherwise it cancels the pending
visibility tick keyed by the item's id, stops the animator, and bursts the
completion queue with `interrupted=true` iff `processQueue` is true. -/
theorem C5_stop_behavior (p : Bool) (s : VisState)
    (hd : s._isDestroyed = false) :
    stop' p s =
      if s._isHiding = false ∧ s._isShowing = false then s
      else if p then burst true { s with tick := none, animator := none }
      else { s with tick := none, animator := none } := by
  cases hh : s._isHiding <;> cases hsh : s._isShowing <;> cases p <;>
    simp [stop', burst, hd, hh, hsh]

/-- Witness for C5 at a concrete reachable showing state. -/
theorem C5_witness :
    stop' true stateShowing =
      if stateShowing._isHiding = false ∧ stateShowing._isShowing = false
      then stateShowing
      else if true then
        burst true { stateShowing with tick := none, animator := none }
      else { stateShowing with tick := none, animator := none } :=
  C5_stop_behavior true stateShowing rfl

/-! ## Claim C6 -/

lemma show_destroyed (st : Settings) (i : Bool) (f : Option CallbackId)
    (s : VisState) (h : s._isDestroyed = true) : show' st i f s = s := by
  simp [show', h]

lemma hide_destroyed (st : Settings) (i : Bool) (f : Option CallbackId)
    (s : VisState) (h : s._isDestroyed = true) : hide' st i f s = s := by
  simp [hide', h]

lemma stop_destroyed (p : Bool) (s : VisState) (h : s._isDestroyed = true) :
    stop' p s = s := by
  simp [stop', h]

lemma destroy_destroyed (s : VisState) (h : s._isDestroyed = true) :
    destroy' s = s := by
  simp [destroy', h]

/-- C6: `destroy()` on a non-destroyed instance forces the state to
`(hidden=true, hiding=false, showing=false)` and is terminal: every
subsequent call to `show`, `hide`, `stop` or `destroy` returns immediately
without changing any state. -/
theorem C6_destroy_terminal (st : Settings) (s : VisState)
    (hd : s._isDestroyed = false) :
    (destroy' s)._isHidden = true ∧ (destroy' s)._isHiding = false ∧
    (destroy' s)._isShowing = false ∧
    (∀ (instant : Bool) (onFinish : Option CallbackId) (p : Bool),
      show' st instant onFinish (destroy' s) = destroy' s ∧
      hide' st instant onFinish (destroy' s) = destroy' s ∧
      stop' p (destroy' s) = destroy' s ∧
      destroy' (destroy' s) = destroy' s) := by
  have hdest : (destroy' s)._isDestroyed = true := by
    simp [destroy', hd]
  refine ⟨by simp [destroy', hd], by simp [destroy', hd], by simp [destroy', hd], ?_⟩
  intro instant onFinish p
  exact ⟨show_destroyed st instant onFinish _ hdest,
    hide_destroyed st instant onFinish _ hdest,
    stop_destroyed p _ hdest, destroy_destroyed _ hdest⟩

/-- Witness for C6 at the freshly constructed visible state. -/
theorem C6_witness :
    (destroy' (initVis true))._isHidden = true ∧
    show' settingsBasic false (some 1) (destroy' (initVis true))
      = destroy' (initVis true) ∧
    stop' true (destroy' (initVis true)) = destroy' (initVis true) := by
  obtain ⟨h1, _, _, h4⟩ := C6_destroy_terminal settingsBasic (initVis true) rfl
  obtain ⟨hshow, _, hstop, _⟩ := h4 false (some 1) true
  exact ⟨h1, hshow, hstop⟩

/-! ## Claim C7 -/

/-- C7, counterexample: windowing is enabled and the item's post-layout
target position is outside the viewport plus the threshold margin, yet — the
current translate position being inside the viewport — the WRITE-phase
callback of the pending show tick starts the interpolation (`animStarts`
becomes 1), applies no style set directly and does not finish the
transition, contradicting the claim that the show skip is decided by the
post-layout target position. -/
theorem C7_counterexample :
    settingsWindowing._animationWindowing = true ∧
    _isInViewport geomTargetOut
      (geomTargetOut.itemLeft + geomTargetOut.containerDiffX)
      (geomTargetOut.itemTop + geomTargetOut.containerDiffY)
      VIEWPORT_THRESHOLD = false ∧
    (runTick settingsWindowing geomTargetOut
        (show' settingsWindowing false (some 1) (initVis false))).animStarts = 1 ∧
    (runTick settingsWindowing geomTargetOut
        (show' settingsWindowing false (some 1) (initVis false)))._isShowing = true ∧
    (runTick settingsWindowing geomTargetOut
        (show' settingsWindowing false (some 1) (initVis false))).styleWrites = [] := by
  decide

/-- C7, amended: in the WRITE-phase callback of a non-instant transition with
windowing enabled, when the item's current translate position is outside the
viewport plus the threshold margin AND additionally the item is inactive or
its post-layout target position is also outside, the target style set is
applied directly, the animator is stopped, and the transition finishes
without starting any interpolation. -/
theorem C7_amended_windowing_skip (st : Settings) (g : Geometry)
    (td : TickData) (s : VisState)
    (ht : s.tick = some td)
    (hd : s._isDestroyed = false)
    (hguard : (if td.toVisible then s._isShowing else s._isHiding) = true)
    (hw : st._animationWindowing = true)
    (hcur : _isInViewport g g.translateX g.translateY VIEWPORT_THRESHOLD = false)
    (htarget : g.isActive = false ∨
      _isInViewport g (g.itemLeft + g.containerDiffX)
        (g.itemTop + g.containerDiffY) VIEWPORT_THRESHOLD = false) :
    runTick st g s =
      runFinish td.onFinish
        { s with tick := none, needsDimensionRefresh := false,
                 styleWrites := s.styleWrites ++ [td.targetStyles],
                 animator := none } := by
  cases td with
  | mk tv tsty f =>
    cases tv <;> rcases htarget with ha | hvp <;>
      cases hndr : s.needsDimensionRefresh <;> simp_all [runTick]

/-- Witness for the amended C7: an out-of-viewport inactive item mid-hide
takes the skip path. -/
theorem C7_witness :
    runTick settingsWindowing geomCurrentOut stateHiding =
      runFinish (some FinishCb.fhide)
        { stateHiding with tick := none, needsDimensionRefresh := false,
                           styleWrites := stateHiding.styleWrites
                             ++ [[("opacity", "0")]],
                           animator := none } :=
  C7_amended_windowing_skip settingsWindowing geomCurrentOut
    ⟨false, [("opacity", "0")], some FinishCb.fhide⟩ stateHiding
    rfl rfl rfl rfl rfl (Or.inl rfl)

/-! ## Claim C8 -/

/-- C8, counterexample: with `durationMs = 0` the cancel branch of the
returned function is unreachable (`durationMs <= 0` returns first without
setting `isCanceled`), so after an invocation with `cancel=true` a later
plain invocation still executes `fn`. -/
theorem C8_counterexample :
    (runDeb 0 [DebOp.call true] initDeb).fireCount = 0 ∧
    (runDeb 0 [DebOp.call true, DebOp.call false] initDeb).fireCount = 1 := by
  decide

lemma runDeb_cons (dm : Int) (op : DebOp) (ops : List DebOp) (d : DebState) :
    runDeb dm (op :: ops) d = runDeb dm ops (applyDebOp dm op d) := rfl

lemma deb_canceled_call (dm : Int) (c : Bool) (d : DebState)
    (h : d.isCanceled = true) : debouncedFn dm c d = d := by
  simp [debouncedFn, h]

lemma deb_canceled_fire_count (t : Int) (d : DebState)
    (h : d.isCanceled = true) : (tickerFire t d).fireCount = d.fireCount := by
  cases hs : d.scheduled <;> simp [tickerFire, tick, h, hs]

lemma deb_canceled_fire_canceled (t : Int) (d : DebState)
    (h : d.isCanceled = true) : (tickerFire t d).isCanceled = true := by
  cases hs : d.scheduled <;> simp [tickerFire, tick, h, hs]

lemma deb_canceled_run (dm : Int) (ops : List DebOp) (d : DebState)
    (h : d.isCanceled = true) : (runDeb dm ops d).fireCount = d.fireCount := by
  induction ops generalizing d with
  | nil => rfl
  | cons op ops ih =>
    rw [runDeb_cons]
    cases op with
    | call c =>
      rw [show applyDebOp dm (DebOp.call c) d = debouncedFn dm c d from rfl,
        deb_canceled_call dm c d h]
      exact ih d h
    | frame t =>
      rw [show applyDebOp dm (DebOp.frame t) d = tickerFire t d from rfl,
        ih (tickerFire t d) (deb_canceled_fire_canceled t d h),
        deb_canceled_fire_count t d h]

lemma deb_cancel_canceled (dm : Int) (hdm : 0 < dm) (d : DebState) :
    (debouncedFn dm true d).isCanceled = true := by
  have hnle : ¬(dm ≤ 0) := not_le.mpr hdm
  by_cases h : d.isCanceled = true
  · simp [debouncedFn, h]
  · simp [debouncedFn, h, hnle]

/-- C8, amended: for every function returned by `debounce(fn, durationMs)`
with `durationMs > 0`, once the returned function has been invoked with the
cancel argument set to true, `fn` is never executed again: no later
invocation and no ticker frame can trigger it. -/
theorem C8_amended_cancel_inert (dm : Int) (hdm : 0 < dm) (d : DebState)
    (ops : List DebOp) :
    (runDeb dm ops (debouncedFn dm true d)).fireCount
      = (debouncedFn dm true d).fireCount :=
  deb_canceled_run dm ops _ (deb_cancel_canceled dm hdm d)

/-- Witness for the amended C8: a canceled 5 ms debounce never fires across
later frames and invocations. -/
theorem C8_witness :
    (runDeb 5 [DebOp.frame 1, DebOp.call false, DebOp.frame 10]
        (debouncedFn 5 true initDeb)).fireCount
      = (debouncedFn 5 true initDeb).fireCount :=
  C8_amended_cancel_inert 5 (by decide) initDeb
    [DebOp.frame 1, DebOp.call false, DebOp.frame 10]

/-! ## Claim C9 -/

/-- C9, counterexample: with a defined-but-empty visible style set
(`some []`, i.e. `{}` in JS, which is truthy) and a positive duration, the
non-instant show path of `_startAnimation` (invoked here through `show`) does
register a visibility tick with the scheduler and does not invoke the finish
handler — the early-exit check `if (!targetStyles)` only fires for an
absent/undefined style set, contradicting "empty or undefined". -/
theorem C9_counterexample :
    settingsEmptyStyles.visibleStyles = some [] ∧
    (show' settingsEmptyStyles false (some 1) (initVis false)).tick.isSome = true ∧
    (show' settingsEmptyStyles false (some 1) (initVis false)).events = [] ∧
    (show' settingsEmptyStyles false (some 1) (initVis false))._isShowing = true := by
  decide

/-- C9, amended: when `_startAnimation` is invoked on a non-destroyed
instance and the target style set is absent (undefined/falsy), the animator
is stopped and the finish handler is invoked immediately, with no scheduler
registration and no style application. -/
theorem C9_amended_undefined_styles (st : Settings) (tv inst : Bool)
    (f : Option FinishCb) (s : VisState)
    (hd : s._isDestroyed = false)
    (hstyles : (if tv then st.visibleStyles else st.hiddenStyles) = none) :
    _startAnimation st tv inst f s = runFinish f { s with animator := none } := by
  cases tv <;> simp_all [_startAnimation]

/-- Witness for the amended C9 at the freshly constructed visible state. -/
theorem C9_witness :
    _startAnimation settingsNoStyles true false (some FinishCb.fshow)
        (initVis true)
      = runFinish (some FinishCb.fshow) { initVis true with animator := none } :=
  C9_amended_undefined_styles settingsNoStyles true false (some FinishCb.fshow)
    (initVis true) rfl rfl

/-! ## Claim C10 -/

/-- C10: a stale finish signal can never flip the visibility state across a
preempting opposite-direction request: `_finishShow` is a complete no-op
whenever `_isHidden` is true, and `_finishHide` is a complete no-op whenever
`_isHidden` is false. -/
theorem C10_stale_finish_noop (s : VisState) :
    (s._isHidden = true → _finishShow s = s) ∧
    (s._isHidden = false → _finishHide s = s) := by
  constructor
  · intro h; simp [_finishShow, h]
  · intro h; simp [_finishHide, h]

/-- Witness for C10 at the freshly constructed hidden and visible states. -/
theorem C10_witness :
    _finishShow (initVis false) = initVis false ∧
    _finishHide (initVis true) = initVis true :=
  ⟨(C10_stale_finish_noop (initVis false)).1 rfl,
   (C10_stale_finish_noop (initVis true)).2 rfl⟩

end Muuri
